import Mathlib

/-!
Verification of the layout-based PDF classifier of this repository.

The development shallowly embeds the two rule matchers of the source
(analyze_form_content_improved from improved_pdf_classifier.py and
analyze_form_content from Solution_2_server.py) together with the
classification entry point classify_document from Solution_2_server.py.

Python floats are modelled exactly: every numeric literal of the
source (437.46, 7.0, tolerances 2, 3.0, 20) has at most two decimal
places, so font sizes, tolerances and bounding-box coordinates are
represented as integers in hundredths of a point (7.0 becomes 700,
437.46 becomes 43746); every comparison of the source has the shape
abs(a - b) <= tol, abs(a - b) < tol or a > b, all invariant under this
scaling, so the embedding is order-faithful.  Python
Optional[str] is modelled as Option String; Python str helpers
(strip, isdigit, startswith, substring containment) are modelled over
the character list of the string.  External effects of
classify_document (PDF extraction, the Google ID detector, the OpenAI
handwriting detector) are modelled by an environment record carrying
the outcome of each external call: extraction either raises
(Except.error) or yields the spans and lines, and each detector call
either raises or yields its boolean verdict.
-/

/- The text_spans parameter of both rule matchers is deliberately kept
although, as in the source, it is never consulted (claim C10). -/
set_option linter.unusedVariables false

/-- Model of Python str.strip(): drop whitespace on both ends. -/
def pyStrip (s : String) : String :=
  String.mk (((s.data.dropWhile Char.isWhitespace).reverse.dropWhile Char.isWhitespace).reverse)

/-- Model of Python str.isdigit(): non-empty and all digit characters. -/
def pyIsdigit (s : String) : Bool :=
  !s.data.isEmpty && s.data.all Char.isDigit

/-- Model of Python s.startswith(p). -/
def pyStartswith (s p : String) : Bool :=
  p.data.isPrefixOf s.data

/-- Helper for substring containment over character lists. -/
def substrAux (needle : List Char) : List Char → Bool
  | [] => needle.isEmpty
  | c :: rest => needle.isPrefixOf (c :: rest) || substrAux needle rest

/-- Model of the Python expression needle in hay (substring containment). -/
def pyIn (needle hay : String) : Bool :=
  substrAux needle.data hay.data

/-- A span bounding box: (left, top, right, bottom) in page points. -/
abbrev Bbox := ℤ × ℤ × ℤ × ℤ

/-- One contiguous run of same-styled text, as produced by
extract_text_from_pdf (both variants): trimmed text, font name, font
size, packed color, optional bounding box, 1-based page. -/
structure Span where
  text : String
  font_name : String
  font_size : ℤ
  font_color : Int
  bbox : Option Bbox
  page : Nat
deriving DecidableEq

/-- A visual line: joined text, its ordered spans, 1-based page. -/
structure Line where
  text : String
  spans : List Span
  page : Nat
deriving DecidableEq

/-- First some value of f over a list, in order; models a Python for
loop that returns (or breaks) at the first hit. -/
def firstMatch {α β : Type} (f : α → Option β) : List α → Option β
  | [] => none
  | x :: xs =>
    match f x with
    | some r => some r
    | none => firstMatch f xs

/-- Model of the doubly nested for l in lines / for s in l.spans scan
with a break out of both loops at the first span satisfying p. -/
def findSpan (p : Span → Bool) (lines : List Line) : Option Span :=
  firstMatch (fun l => l.spans.find? p) lines

/-- An inclusive tolerance window: abs(actual - expected) <= tol.
This is the comparison used by every font check of the rule matchers
(both variants use tolerance 2, i.e. 200 hundredths, with <=). -/
def sizeWithinTol (actual expected tol : ℤ) : Bool :=
  decide (|actual - expected| ≤ tol)

/-- A strict tolerance window: abs(actual - expected) < tol.  This is
the comparison used by the 1098 year extractor for the font size
(abs(font_size - 6.0) < 2 in both variants). -/
def sizeNearStrict (actual expected tol : ℤ) : Bool :=
  decide (|actual - expected| < tol)

/-- The 1098 year extractor bbox test: all(abs(b - e) < margin for
b, e in zip(bbox, year_bbox)) — strict on every coordinate. -/
def bboxNearStrict (b e : Bbox) (margin : ℤ) : Bool :=
  decide (|b.1 - e.1| < margin) && decide (|b.2.1 - e.2.1| < margin) &&
    decide (|b.2.2.1 - e.2.2.1| < margin) && decide (|b.2.2.2 - e.2.2.2| < margin)

/-- The reference box for the 1098 year digits, from the source:
year_bbox = [437.46, 98.37, 444.14, 104.38], in hundredths. -/
def year_bbox : Bbox := (43746, 9837, 44414, 10438)

/-- The span test of the 1098 year scan (shared text of both variants;
improved_pdf_classifier.py uses margin 3.0 = 300, Solution_2_server.py
uses tolerance 20 = 2000): bbox present and strictly within the margin
of year_bbox, text a 2-digit string, font size strictly within 2 of
6.0 (200 of 600), and font name containing "Helvetica". -/
def is1098YearSpan (margin : ℤ) (s : Span) : Bool :=
  match s.bbox with
  | none => false
  | some b =>
    bboxNearStrict b year_bbox margin && pyIsdigit s.text &&
      s.text.data.length == 2 && sizeNearStrict s.font_size 600 200 &&
      pyIn "Helvetica" s.font_name

/-- The 1098 year scan: first qualifying span gives "20" + digits,
otherwise the empty string (Python's year = ""). -/
def year1098 (margin : ℤ) (lines : List Line) : String :=
  match findSpan (is1098YearSpan margin) lines with
  | some s => "20" ++ s.text
  | none => ""

/-- Span test of the 4-digit year scans: stripped text is exactly 4
digits and starts with "20". -/
def is4DigitYearSpan (s : Span) : Bool :=
  pyIsdigit (pyStrip s.text) && (pyStrip s.text).data.length == 4 &&
    pyStartswith (pyStrip s.text) "20"

/-- Span test of the 2-digit year scans: stripped text is exactly 2
digits and starts with "2". -/
def is2DigitYearSpan (s : Span) : Bool :=
  pyIsdigit (pyStrip s.text) && (pyStrip s.text).data.length == 2 &&
    pyStartswith (pyStrip s.text) "2"

/-- Whole-document scan for a 4-digit year token ("" if none). -/
def year4Digit (lines : List Line) : String :=
  match findSpan is4DigitYearSpan lines with
  | some s => pyStrip s.text
  | none => ""

/-- Whole-document scan for a 2-digit year token, prefixed with the
century ("" if none). -/
def year2Digit (lines : List Line) : String :=
  match findSpan is2DigitYearSpan lines with
  | some s => "20" ++ pyStrip s.text
  | none => ""

/-- The 1099 year strategy of analyze_form_content_improved: 4-digit
scan, then 2-digit scan. -/
def year1099_improved (lines : List Line) : String :=
  if year4Digit lines = "" then year2Digit lines else year4Digit lines

/-- Span test of the W2 method-1 scan of the improved variant: a
4-digit "20…" token with font size strictly greater than 15. -/
def isW2LargeYearSpan (s : Span) : Bool :=
  pyIsdigit (pyStrip s.text) && (pyStrip s.text).data.length == 4 &&
    pyStartswith (pyStrip s.text) "20" && decide ((1500 : ℤ) < s.font_size)

/-- The W2 year strategy of analyze_form_content_improved: large-font
4-digit token first, then any 4-digit token. -/
def yearW2_improved (lines : List Line) : String :=
  if (match findSpan isW2LargeYearSpan lines with
      | some s => pyStrip s.text
      | none => "") = ""
  then year4Digit lines
  else
    match findSpan isW2LargeYearSpan lines with
    | some s => pyStrip s.text
    | none => ""

/-- The parenthesized substring of the 1040 title-line heuristic:
characters strictly between the first "(" and the first ")" when the
first "(" comes before the first ")", stripped; "" otherwise. -/
def parenYear (t : String) : String :=
  match t.data.findIdx? (fun c => c == '('), t.data.findIdx? (fun c => c == ')') with
  | some i, some j =>
    if i + 1 < j then
      pyStrip (String.mk ((t.data.drop (i + 1)).take (j - (i + 1))))
    else ""
  | _, _ => ""

/-- The 1040 year strategy of analyze_form_content_improved:
parenthesized title year, then 4-digit scan, then 2-digit scan. -/
def year1040_improved (lineText : String) (lines : List Line) : String :=
  if (if pyIsdigit (parenYear lineText) && (parenYear lineText).data.length == 4 &&
        pyStartswith (parenYear lineText) "20"
      then parenYear lineText else "") = ""
  then (if year4Digit lines = "" then year2Digit lines else year4Digit lines)
  else (if pyIsdigit (parenYear lineText) && (parenYear lineText).data.length == 4 &&
          pyStartswith (parenYear lineText) "20"
        then parenYear lineText else "")

/-- One iteration of the line loop of analyze_form_content_improved
(improved_pdf_classifier.py, lines 74-231): given the whole line list
(needed by the year scans) and one line, either the matched
(document_type, year) or none when the line triggers no rule. -/
def matchLine (all : List Line) (line : Line) : Option (String × String) :=
  if pyStrip line.text == "Form 1098" then
    match line.spans with
    | [s0, s1] =>
      if s0.text == "Form" && s1.text == "1098" then
        if sizeWithinTol s0.font_size 700 200 && s0.font_name == "HelveticaNeueLTStd-Roman" &&
            sizeWithinTol s1.font_size 1400 200 && s1.font_name == "HelveticaNeueLTStd-Bd" then
          some ("1098", year1098 300 all)
        else none
      else none
    | _ => none
  else if pyStrip line.text == "Form 1099-INT" || pyStrip line.text == "Form 1099-DIV" then
    match line.spans with
    | [s0, s1] =>
      if s0.text == "Form" then
        if sizeWithinTol s0.font_size 700 200 && s0.font_name == "HelveticaNeueLTStd-Roman" &&
            sizeWithinTol s1.font_size 1200 200 && s1.font_name == "HelveticaNeueLTStd-Bd" &&
            (pyStrip line.text == "Form 1099-INT" || pyStrip line.text == "Form 1099-DIV") then
          some ("1099", year1099_improved all)
        else none
      else none
    | _ => none
  else if pyStrip line.text == "Form W-2" then
    match line.spans with
    | [s0, s1] =>
      if s0.text == "Form" && s1.text == "W-2" then
        if sizeWithinTol s0.font_size 700 200 && s0.font_name == "HelveticaNeueLTStd-Bd" &&
            sizeWithinTol s1.font_size 2400 200 && s1.font_name == "HelveticaNeueLTStd-BlkCn" then
          some ("W2", yearW2_improved all)
        else none
      else none
    | _ => none
  else if pyStartswith (pyStrip line.text) "Form 1040" then
    match line.spans with
    | s0 :: s1 :: _ =>
      if s0.text == "Form" && s1.text == "1040" then
        if sizeWithinTol s0.font_size 600 200 && s0.font_name == "HelveticaNeueLTStd-Roman" &&
            sizeWithinTol s1.font_size 900 200 && s1.font_name == "HelveticaNeueLTStd-Bd" then
          some ("1040", year1040_improved line.text all)
        else none
      else none
    | _ => none
  else none

/-- analyze_form_content_improved (improved_pdf_classifier.py): scan
the lines in order and return at the first line fully matching a rule;
the Python function returns the pair (type, year-string) on a match
(the year may be "") and (None, None) otherwise.  The text_spans
argument is accepted, as in the source, and never consulted. -/
def analyze_form_content_improved (text_spans : List Span) (lines : List Line) :
    Option String × Option String :=
  match firstMatch (matchLine lines) lines with
  | some (t, y) => (some t, some y)
  | none => (none, none)


/-- The W2 year scan of analyze_form_content (Solution_2_server.py,
lines 330-343): a span with font size within 2 of 24.0 (200 of 2400,
inclusive), font name exactly "OCRAStd" and a 4-digit text — note that
this variant does not strip the text and does not require the "20"
prefix. -/
def isW2YearSpanS2 (s : Span) : Bool :=
  sizeWithinTol s.font_size 2400 200 && s.font_name == "OCRAStd" &&
    pyIsdigit s.text && s.text.data.length == 4

/-- The W2 year strategy of analyze_form_content: the OCRAStd scan
("" if none found). -/
def yearW2_S2 (lines : List Line) : String :=
  match findSpan isW2YearSpanS2 lines with
  | some s => s.text
  | none => ""

/-- The 1040 year strategy of analyze_form_content: only the
parenthesized-title heuristic ("" when absent or malformed). -/
def year1040_S2 (lineText : String) : String :=
  if pyIsdigit (parenYear lineText) && (parenYear lineText).data.length == 4 &&
      pyStartswith (parenYear lineText) "20"
  then parenYear lineText else ""

/-- The year == "" to None conversion every branch of
analyze_form_content performs before returning. -/
def convYear (y : String) : Option String :=
  if y = "" then none else some y

/-- One iteration of the line loop of analyze_form_content
(Solution_2_server.py, lines 252-372).  The trigger, structural and
font conditions are identical to the improved variant; the year
strategies differ (1098 uses tolerance 20 = 2000, 1099 has only the
4-digit scan, W2 uses the OCRAStd scan, 1040 only the parenthesized
title), the empty year is converted to None, and — as in the source —
every branch returns the document type "1098". -/
def matchLineS2 (all : List Line) (line : Line) : Option (String × Option String) :=
  if pyStrip line.text == "Form 1098" then
    match line.spans with
    | [s0, s1] =>
      if s0.text == "Form" && s1.text == "1098" then
        if sizeWithinTol s0.font_size 700 200 && s0.font_name == "HelveticaNeueLTStd-Roman" &&
            sizeWithinTol s1.font_size 1400 200 && s1.font_name == "HelveticaNeueLTStd-Bd" then
          some ("1098", convYear (year1098 2000 all))
        else none
      else none
    | _ => none
  else if pyStrip line.text == "Form 1099-INT" || pyStrip line.text == "Form 1099-DIV" then
    match line.spans with
    | [s0, s1] =>
      if s0.text == "Form" then
        if sizeWithinTol s0.font_size 700 200 && s0.font_name == "HelveticaNeueLTStd-Roman" &&
            sizeWithinTol s1.font_size 1200 200 && s1.font_name == "HelveticaNeueLTStd-Bd" &&
            (pyStrip line.text == "Form 1099-INT" || pyStrip line.text == "Form 1099-DIV") then
          some ("1098", convYear (year4Digit all))
        else none
      else none
    | _ => none
  else if pyStrip line.text == "Form W-2" then
    match line.spans with
    | [s0, s1] =>
      if s0.text == "Form" && s1.text == "W-2" then
        if sizeWithinTol s0.font_size 700 200 && s0.font_name == "HelveticaNeueLTStd-Bd" &&
            sizeWithinTol s1.font_size 2400 200 && s1.font_name == "HelveticaNeueLTStd-BlkCn" then
          some ("1098", convYear (yearW2_S2 all))
        else none
      else none
    | _ => none
  else if pyStartswith (pyStrip line.text) "Form 1040" then
    match line.spans with
    | s0 :: s1 :: _ =>
      if s0.text == "Form" && s1.text == "1040" then
        if sizeWithinTol s0.font_size 600 200 && s0.font_name == "HelveticaNeueLTStd-Roman" &&
            sizeWithinTol s1.font_size 900 200 && s1.font_name == "HelveticaNeueLTStd-Bd" then
          some ("1098", convYear (year1040_S2 line.text))
        else none
      else none
    | _ => none
  else none

/-- analyze_form_content (Solution_2_server.py, lines 252-372): scan
the lines in order and return at the first line fully matching a rule,
as a pair (Optional type, Optional year); (None, None) when no rule
fires.  The text_spans argument is accepted, as in the source, and
never consulted. -/
def analyze_form_content (text_spans : List Span) (lines : List Line) :
    Option String × Option String :=
  match firstMatch (matchLineS2 lines) lines with
  | some (t, y) => (some t, y)
  | none => (none, none)

/-- The outcomes of the three external calls classify_document makes:
extraction of (text_spans, lines) from the PDF (which raises on an
unreadable PDF), the Google Document AI ID check and the OpenAI
handwriting check (each of which either raises inside its own
try/except or reports whether it detected its class). -/
structure Env where
  extract : Except Unit (List Span × List Line)
  idDetect : Except Unit Bool
  hwDetect : Except Unit Bool

/-- id_check (Solution_2_server.py, lines 375-448): returns "ID Card"
when the external service detects an ID, None otherwise; its own
try/except collapses any exception to None. -/
def id_check (r : Except Unit Bool) : Option String :=
  match r with
  | Except.ok true => some "ID Card"
  | Except.ok false => none
  | Except.error _ => none

/-- handwritten_check (Solution_2_server.py, lines 451-523): returns
"Handwritten Notes" when the vision model answers YES, None otherwise;
its own try/except collapses any exception to None. -/
def handwritten_check (r : Except Unit Bool) : Option String :=
  match r with
  | Except.ok true => some "Handwritten Notes"
  | Except.ok false => none
  | Except.error _ => none

/-- Python truthiness of the document_type variable: None and the
empty string are falsy. -/
def optFalsy (o : Option String) : Bool :=
  match o with
  | none => true
  | some s => s == ""

/-- classify_document (Solution_2_server.py, lines 526-551): extract,
run the rule matcher, then fall back to the ID detector, the
handwriting detector and finally "OTHER"; the surrounding try/except
turns any exception (in our model: extraction failure) into
("OTHER", None). -/
def classify_document (env : Env) : String × Option String :=
  match env.extract with
  | Except.error _ => ("OTHER", none)
  | Except.ok (text_spans, lines) =>
    let r := analyze_form_content text_spans lines
    let dt1 := if optFalsy r.1 then id_check env.idDetect else r.1
    let dt2 := if optFalsy dt1 then handwritten_check env.hwDetect else dt1
    match dt2 with
    | some s => if s == "" then ("OTHER", r.2) else (s, r.2)
    | none => ("OTHER", r.2)

/-- The fixed output label set of the spec (section 6). -/
def labelSet : List String :=
  ["1098", "1099", "W2", "1040", "ID Card", "Handwritten Notes", "OTHER"]

/-- Shape of a well-formed year value: absent, or a 4-digit string. -/
def yearOk (y : Option String) : Prop :=
  y = none ∨ ∃ s, y = some s ∧ s.data.length = 4 ∧ s.data.all Char.isDigit = true

/- Concrete inputs used by the theorems below.  Sizes are in
hundredths of a point (700 = 7.0 pt). -/

/-- A line matching the W-2 rule of the spec's round-trip example. -/
def w2Line : Line :=
  ⟨"Form W-2",
    [⟨"Form", "HelveticaNeueLTStd-Bd", 700, 0, none, 1⟩,
     ⟨"W-2", "HelveticaNeueLTStd-BlkCn", 2400, 0, none, 1⟩], 1⟩

/-- A lone span "2022" at font size 20 (the round-trip example). -/
def line2022 : Line := ⟨"2022", [⟨"2022", "SomeFont", 2000, 0, none, 1⟩], 1⟩

/-- A lone span "2099" at font size 20, used to perturb year scans. -/
def line2099 : Line := ⟨"2099", [⟨"2099", "SomeFont", 2000, 0, none, 1⟩], 1⟩

/-- A line matching the 1099 rule (INT variant, nominal sizes). -/
def line1099 : Line :=
  ⟨"Form 1099-INT",
    [⟨"Form", "HelveticaNeueLTStd-Roman", 700, 0, none, 1⟩,
     ⟨"1099-INT", "HelveticaNeueLTStd-Bd", 1200, 0, none, 1⟩], 1⟩

/-- A line matching the 1098 rule (nominal sizes). -/
def line1098 : Line :=
  ⟨"Form 1098",
    [⟨"Form", "HelveticaNeueLTStd-Roman", 700, 0, none, 1⟩,
     ⟨"1098", "HelveticaNeueLTStd-Bd", 1400, 0, none, 1⟩], 1⟩

/-- A 1098 year span "24" exactly on the reference box, font size
exactly 8.0 = 6.0 + 2 (the strict boundary of the year extractor). -/
def lineYear8 : Line :=
  ⟨"24", [⟨"24", "Helvetica", 800, 0, some (43746, 9837, 44414, 10438), 1⟩], 1⟩

/-- The same 1098 year span at font size 7.0, strictly inside the
tolerance window. -/
def lineYear7 : Line :=
  ⟨"24", [⟨"24", "Helvetica", 700, 0, some (43746, 9837, 44414, 10438), 1⟩], 1⟩

/-- A W-2 trigger line whose font names are swapped, so the trigger
text matches but the font requirements fail. -/
def badW2Line : Line :=
  ⟨"Form W-2",
    [⟨"Form", "HelveticaNeueLTStd-BlkCn", 700, 0, none, 1⟩,
     ⟨"W-2", "HelveticaNeueLTStd-Bd", 2400, 0, none, 1⟩], 1⟩

/-- A line matching the 1040 rule, with the year in the title. -/
def good1040Line : Line :=
  ⟨"Form 1040 (2022)",
    [⟨"Form", "HelveticaNeueLTStd-Roman", 600, 0, none, 1⟩,
     ⟨"1040", "HelveticaNeueLTStd-Bd", 900, 0, none, 1⟩,
     ⟨"(2022)", "SomeFont", 1000, 0, none, 1⟩], 1⟩

/-- A W-2 line whose two spans sit exactly at the inclusive boundary
of the matcher windows: 9.0 = 7.0 + 2 and 26.0 = 24.0 + 2. -/
def w2BoundaryLine : Line :=
  ⟨"Form W-2",
    [⟨"Form", "HelveticaNeueLTStd-Bd", 900, 0, none, 1⟩,
     ⟨"W-2", "HelveticaNeueLTStd-BlkCn", 2600, 0, none, 1⟩], 1⟩

/-- A lone span "1999" in OCRAStd at font size 24: accepted by the
Solution_2 W2 year scan although it does not start with "20". -/
def line1999 : Line := ⟨"1999", [⟨"1999", "OCRAStd", 2400, 0, none, 1⟩], 1⟩

/-! ### Basic lemmas about the scanning combinators -/

theorem string_data_append (a b : String) : (a ++ b).data = a.data ++ b.data := by
  rcases a with ⟨xs⟩
  rcases b with ⟨ys⟩
  rfl

theorem firstMatch_eq_some {α β : Type} {f : α → Option β} {xs : List α} {r : β}
    (h : firstMatch f xs = some r) : ∃ x, x ∈ xs ∧ f x = some r := by
  induction xs with
  | nil => simp [firstMatch] at h
  | cons x xs ih =>
    rw [firstMatch] at h
    cases hfx : f x with
    | some r2 =>
      rw [hfx] at h
      simp only [Option.some.injEq] at h
      exact ⟨x, List.mem_cons_self x xs, by rw [hfx, h]⟩
    | none =>
      rw [hfx] at h
      obtain ⟨a, hm, hfa⟩ := ih h
      exact ⟨a, List.mem_cons_of_mem x hm, hfa⟩

theorem firstMatch_first_hit {α β : Type} (f : α → Option β) (pre : List α) (x : α)
    (post : List α) (r : β) (hpre : ∀ a ∈ pre, f a = none) (hx : f x = some r) :
    firstMatch f (pre ++ x :: post) = some r := by
  induction pre with
  | nil => simp only [List.nil_append]; rw [firstMatch, hx]
  | cons a pre ih =>
    have ha := hpre a (List.mem_cons_self a pre)
    rw [List.cons_append, firstMatch, ha]
    exact ih fun b hb => hpre b (List.mem_cons_of_mem a hb)

theorem findSpan_pred {p : Span → Bool} {lines : List Line} {s : Span}
    (h : findSpan p lines = some s) : p s = true := by
  obtain ⟨l, _, hl⟩ := firstMatch_eq_some h
  exact List.find?_some hl

/-! ### Shape of the year values the Solution_2 matcher can return -/

theorem pyIsdigit_all {t : String} (h : pyIsdigit t = true) :
    t.data.all Char.isDigit = true := by
  unfold pyIsdigit at h
  simp only [Bool.and_eq_true] at h
  exact h.2

theorem year20_ok {t : String} (hd : t.data.all Char.isDigit = true)
    (h2 : t.data.length = 2) :
    ("20" ++ t).data.length = 4 ∧ ("20" ++ t).data.all Char.isDigit = true := by
  have hdata : ("20" ++ t).data = '2' :: '0' :: t.data := by
    rw [string_data_append]
    rfl
  rw [hdata]
  constructor
  · simp [h2]
  · simp [hd]

theorem year1098_shape (margin : ℤ) (lines : List Line) :
    year1098 margin lines ≠ "" →
    (year1098 margin lines).data.length = 4 ∧
      (year1098 margin lines).data.all Char.isDigit = true := by
  unfold year1098
  cases hf : findSpan (is1098YearSpan margin) lines with
  | none => intro hne; exact absurd rfl hne
  | some s =>
    intro _
    have hp := findSpan_pred hf
    unfold is1098YearSpan at hp
    cases hb : s.bbox with
    | none => rw [hb] at hp; simp at hp
    | some b =>
      rw [hb] at hp
      simp only [Bool.and_eq_true, beq_iff_eq] at hp
      obtain ⟨⟨⟨⟨-, hdig⟩, hlen⟩, -⟩, -⟩ := hp
      exact year20_ok (pyIsdigit_all hdig) hlen

theorem year4Digit_shape (lines : List Line) :
    year4Digit lines ≠ "" →
    (year4Digit lines).data.length = 4 ∧
      (year4Digit lines).data.all Char.isDigit = true := by
  unfold year4Digit
  cases hf : findSpan is4DigitYearSpan lines with
  | none => intro hne; exact absurd rfl hne
  | some s =>
    intro _
    have hp := findSpan_pred hf
    unfold is4DigitYearSpan at hp
    simp only [Bool.and_eq_true, beq_iff_eq] at hp
    obtain ⟨⟨hdig, hlen⟩, -⟩ := hp
    exact ⟨hlen, pyIsdigit_all hdig⟩

theorem yearW2_S2_shape (lines : List Line) :
    yearW2_S2 lines ≠ "" →
    (yearW2_S2 lines).data.length = 4 ∧
      (yearW2_S2 lines).data.all Char.isDigit = true := by
  unfold yearW2_S2
  cases hf : findSpan isW2YearSpanS2 lines with
  | none => intro hne; exact absurd rfl hne
  | some s =>
    intro _
    have hp := findSpan_pred hf
    unfold isW2YearSpanS2 at hp
    simp only [Bool.and_eq_true, beq_iff_eq] at hp
    obtain ⟨⟨⟨-, -⟩, hdig⟩, hlen⟩ := hp
    exact ⟨hlen, pyIsdigit_all hdig⟩

theorem year1040_S2_shape (lineText : String) :
    year1040_S2 lineText ≠ "" →
    (year1040_S2 lineText).data.length = 4 ∧
      (year1040_S2 lineText).data.all Char.isDigit = true := by
  unfold year1040_S2
  split
  · rename_i hcond
    intro _
    simp only [Bool.and_eq_true, beq_iff_eq] at hcond
    obtain ⟨⟨hdig, hlen⟩, -⟩ := hcond
    exact ⟨hlen, pyIsdigit_all hdig⟩
  · intro hne; exact absurd rfl hne

theorem convYear_yearOk {y : String}
    (h : y ≠ "" → y.data.length = 4 ∧ y.data.all Char.isDigit = true) :
    yearOk (convYear y) := by
  unfold convYear yearOk
  split
  · exact Or.inl rfl
  · rename_i hne
    exact Or.inr ⟨y, rfl, h hne⟩

/-- Every successful branch of the Solution_2 line matcher returns
document type "1098" with an absent or 4-digit year. -/
theorem matchLineS2_some {all : List Line} {l : Line} {t : String} {y : Option String}
    (h : matchLineS2 all l = some (t, y)) : t = "1098" ∧ yearOk y := by
  unfold matchLineS2 at h
  split at h
  · split at h
    · split at h
      · split at h
        · simp only [Option.some.injEq, Prod.mk.injEq] at h
          obtain ⟨rfl, rfl⟩ := h
          exact ⟨rfl, convYear_yearOk (year1098_shape 2000 all)⟩
        · exact Option.noConfusion h
      · exact Option.noConfusion h
    · exact Option.noConfusion h
  · split at h
    · split at h
      · split at h
        · split at h
          · simp only [Option.some.injEq, Prod.mk.injEq] at h
            obtain ⟨rfl, rfl⟩ := h
            exact ⟨rfl, convYear_yearOk (year4Digit_shape all)⟩
          · exact Option.noConfusion h
        · exact Option.noConfusion h
      · exact Option.noConfusion h
    · split at h
      · split at h
        · split at h
          · split at h
            · simp only [Option.some.injEq, Prod.mk.injEq] at h
              obtain ⟨rfl, rfl⟩ := h
              exact ⟨rfl, convYear_yearOk (yearW2_S2_shape all)⟩
            · exact Option.noConfusion h
          · exact Option.noConfusion h
        · exact Option.noConfusion h
      · split at h
        · split at h
          · split at h
            · split at h
              · simp only [Option.some.injEq, Prod.mk.injEq] at h
                obtain ⟨rfl, rfl⟩ := h
                exact ⟨rfl, convYear_yearOk (year1040_S2_shape l.text)⟩
              · exact Option.noConfusion h
            · exact Option.noConfusion h
          · exact Option.noConfusion h
        · exact Option.noConfusion h

/-- The Solution_2 matcher either fires nothing or labels "1098" with
a well-formed year. -/
theorem analyze_S2_shape (ts : List Span) (lines : List Line) :
    analyze_form_content ts lines = (none, none) ∨
      ∃ y, analyze_form_content ts lines = (some "1098", y) ∧ yearOk y := by
  unfold analyze_form_content
  cases h : firstMatch (matchLineS2 lines) lines with
  | none => exact Or.inl rfl
  | some r =>
    obtain ⟨t, y⟩ := r
    obtain ⟨ht, hy⟩ := matchLineS2_some (firstMatch_eq_some h).choose_spec.2
    subst ht
    exact Or.inr ⟨y, rfl, hy⟩

/-- If the Solution_2 matcher reports no type it also reports no
year. -/
theorem analyze_S2_none {ts : List Span} {lines : List Line}
    (h : (analyze_form_content ts lines).1 = none) :
    analyze_form_content ts lines = (none, none) := by
  rcases analyze_S2_shape ts lines with h2 | ⟨y, h2, -⟩
  · exact h2
  · rw [h2] at h
    exact absurd h (by simp)

/-- classify_document on a successfully matched document: the matched
type and year are returned unchanged. -/
theorem classify_matched (ts : List Span) (lines : List Line) (idr hwr : Except Unit Bool)
    (t : String) (y : Option String) (h : analyze_form_content ts lines = (some t, y))
    (ht : (t == "") = false) :
    classify_document ⟨Except.ok (ts, lines), idr, hwr⟩ = (t, y) := by
  simp [classify_document, h, optFalsy, ht]

/-- classify_document on an unmatched document: the fallback cascade
can only produce "ID Card", "Handwritten Notes" or "OTHER", always
with no year. -/
theorem classify_fallback_cases (ts : List Span) (lines : List Line)
    (idr hwr : Except Unit Bool) (hr : analyze_form_content ts lines = (none, none)) :
    classify_document ⟨Except.ok (ts, lines), idr, hwr⟩ = ("ID Card", none) ∨
      classify_document ⟨Except.ok (ts, lines), idr, hwr⟩ = ("Handwritten Notes", none) ∨
      classify_document ⟨Except.ok (ts, lines), idr, hwr⟩ = ("OTHER", none) := by
  rcases idr with ⟨⟩ | (_ | _) <;> rcases hwr with ⟨⟩ | (_ | _) <;>
    simp [classify_document, hr, optFalsy, id_check, handwritten_check]

/-! ### Claim C1 -/

/-- C1: code bug.  On a document whose first fully-matching line
triggers the 1099 rule ("Form 1099-INT", two spans, nominal fonts,
no year token anywhere), analyze_form_content of Solution_2_server.py
returns document type "1098" — not "1099" as the spec requires —
while the improved variant of the same repository returns "1099" on
the identical input (with the empty-string year it uses for a missing
year). -/
theorem c1_1099_mislabeled :
    analyze_form_content [] [line1099] = (some "1098", none) ∧
      analyze_form_content_improved [] [line1099] = (some "1099", some "") := by
  decide

/-! ### Claim C2 -/

/-- C2: counterexample.  When the PDF cannot be opened (the extraction
call raises), classify_document does not surface the failure: it
completes normally and returns ("OTHER", None), with "OTHER" a member
of the ordinary label set. -/
theorem c2_counterexample :
    classify_document ⟨Except.error (), Except.error (), Except.error ()⟩ = ("OTHER", none) ∧
      "OTHER" ∈ labelSet := by
  constructor
  · rfl
  · decide

/-- C2 (amended): for every input whose extraction raises, the
exception is caught inside classify_document, which completes with the
normal result ("OTHER", None) instead of surfacing an extraction
error. -/
theorem c2_amended (env : Env) (e : Unit) (h : env.extract = Except.error e) :
    classify_document env = ("OTHER", none) := by
  obtain ⟨ext, idr, hwr⟩ := env
  replace h : ext = Except.error e := h
  subst h
  rfl

/-- C2 witness: the amended theorem at a concrete erroring input. -/
theorem c2_witness :
    classify_document ⟨Except.error (), Except.ok false, Except.ok false⟩ = ("OTHER", none) :=
  c2_amended ⟨Except.error (), Except.ok false, Except.ok false⟩ () rfl

/-! ### Claim C3 -/

/-- C3: counterexample.  An input that contains the round-trip W-2
line and the lone "2022" span at size 20, but also a "2099" span that
the year scan reaches first, classifies as ("W2", "2099") — so the
claim's unrestricted "for every input containing these elements" is
false; interfering content can change the result. -/
theorem c3_counterexample :
    analyze_form_content_improved [] [w2Line, line2099, line2022] = (some "W2", some "2099") ∧
      analyze_form_content_improved [] [w2Line, line2099, line2022] ≠ (some "W2", some "2022") := by
  decide

/-- C3 (amended): the spec's round-trip example itself holds — on the
document consisting of the W-2 line (spans "Form"/Bd/7.0 and
"W-2"/BlkCn/24.0) followed by the lone 4-digit span "2022" at font
size 20, the improved matcher returns ("W2", "2022"). -/
theorem c3_amended :
    analyze_form_content_improved [] [w2Line, line2022] = (some "W2", some "2022") := by
  decide

/-! ### Claim C5 -/

/-- C5: the improved rule matcher scans lines in order and returns the
result of the first line that fully satisfies some rule: lines before
it that match no rule (including trigger-text matches whose
structural/font requirements fail) are skipped without aborting, and
the lines after it are irrelevant to the returned value. -/
theorem c5_first_full_match (ts : List Span) (pre : List Line) (l : Line)
    (post : List Line) (t y : String)
    (hpre : ∀ l2 ∈ pre, matchLine (pre ++ l :: post) l2 = none)
    (hl : matchLine (pre ++ l :: post) l = some (t, y)) :
    analyze_form_content_improved ts (pre ++ l :: post) = (some t, some y) := by
  unfold analyze_form_content_improved
  rw [firstMatch_first_hit _ pre l post (t, y) hpre hl]

/-- C5 witness: a bad W-2 trigger line (right text, wrong fonts) is
passed over, the 1040 line that follows wins, and a fully-matching
1098 line after it is never consulted. -/
theorem c5_witness :
    analyze_form_content_improved [] ([badW2Line] ++ good1040Line :: [line1098]) =
      (some "1040", some "2022") :=
  c5_first_full_match [] [badW2Line] good1040Line [line1098] "1040" "2022"
    (fun l2 hm => by
      rw [List.mem_singleton] at hm
      subst hm
      decide)
    (by decide)

/-! ### Claim C10 -/

/-- C10: neither rule matcher ever consults its flat text_spans
argument; the result depends only on the lines argument, so the
whole-document year scans read only the spans reachable through
lines. -/
theorem c10_spans_not_consulted (ts1 ts2 : List Span) (lines : List Line) :
    analyze_form_content ts1 lines = analyze_form_content ts2 lines ∧
      analyze_form_content_improved ts1 lines = analyze_form_content_improved ts2 lines :=
  ⟨rfl, rfl⟩

/-! ### Claim C6 -/

/-- C6: counterexample.  On a W-2 document with no year token the
improved matcher returns ("W2", "") — the year slot holds the empty
string, not None as the claim states. -/
theorem c6_counterexample :
    analyze_form_content_improved [] [w2Line] = (some "W2", some "") ∧
      (analyze_form_content_improved [] [w2Line]).2 ≠ none := by
  decide

/-- C6 (amended): when a rule fires and no year strategy finds a
token, no error is raised and the type is still reported:
analyze_form_content_improved always reports a year string alongside
the type (the empty string when no token was found, as on the
token-free W-2 document), while Solution_2's analyze_form_content
converts the empty year to None (as on the token-free 1098
document). -/
theorem c6_amended :
    (∀ (ts : List Span) (lines : List Line),
        analyze_form_content_improved ts lines = (none, none) ∨
          ∃ t y, analyze_form_content_improved ts lines = (some t, some y)) ∧
      analyze_form_content_improved [] [w2Line] = (some "W2", some "") ∧
      analyze_form_content [] [line1098] = (some "1098", none) := by
  refine ⟨?_, by decide, by decide⟩
  intro ts lines
  unfold analyze_form_content_improved
  cases firstMatch (matchLine lines) lines with
  | none => exact Or.inl rfl
  | some r =>
    obtain ⟨t, y⟩ := r
    exact Or.inr ⟨t, y, rfl⟩

/-! ### Claim C7 -/

/-- C7: counterexample.  A W-2 document carrying an OCRAStd span
"1999" at 24 pt classifies (through Solution_2's classify_document) as
("1098", "1999"): the returned year is a 4-digit string that does not
begin with "20", because the OCRAStd year scan never checks the
prefix. -/
theorem c7_counterexample :
    classify_document ⟨Except.ok ([], [w2Line, line1999]), Except.ok false, Except.ok false⟩ =
        ("1098", some "1999") ∧
      pyStartswith "1999" "20" = false := by
  decide

/-- C7 (amended): for every input, classify_document returns a
document type drawn from the fixed label set and a year that is either
absent or a 4-character digit string (the "begins with 20" part of the
claim fails only through the Solution_2 W2/OCRAStd year scan, which
accepts any 4-digit token). -/
theorem c7_label_and_year_shape (env : Env) :
    (classify_document env).1 ∈ labelSet ∧ yearOk (classify_document env).2 := by
  obtain ⟨ext, idr, hwr⟩ := env
  cases ext with
  | error e =>
    have hc : classify_document ⟨Except.error e, idr, hwr⟩ = ("OTHER", none) := rfl
    rw [hc]
    exact ⟨by decide, Or.inl rfl⟩
  | ok p =>
    obtain ⟨ts, lines⟩ := p
    rcases analyze_S2_shape ts lines with hr | ⟨y, hr, hy⟩
    · rcases classify_fallback_cases ts lines idr hwr hr with hc | hc | hc <;>
        rw [hc] <;> exact ⟨by decide, Or.inl rfl⟩
    · have hc := classify_matched ts lines idr hwr "1098" y hr (by decide)
      rw [hc]
      exact ⟨show "1098" ∈ labelSet by decide, hy⟩

/-! ### Claim C8 -/

/-- C8: when the rule matcher returns no type, the fallback cascade
consults the ID detector first (if it fires, the result is "ID Card"
and the handwriting detector's outcome is irrelevant), then the
handwriting detector (if it fires, "Handwritten Notes"), and assigns
"OTHER" only when both yield no opinion; a detector call that raises
is collapsed to no opinion. -/
theorem c8_fallback_cascade (env : Env) (ts : List Span) (lines : List Line)
    (hext : env.extract = Except.ok (ts, lines))
    (hno : (analyze_form_content ts lines).1 = none) :
    (env.idDetect = Except.ok true →
        ∀ hw2 : Except Unit Bool,
          classify_document ⟨env.extract, env.idDetect, hw2⟩ = ("ID Card", none)) ∧
      (id_check env.idDetect = none → env.hwDetect = Except.ok true →
        classify_document env = ("Handwritten Notes", none)) ∧
      (id_check env.idDetect = none → handwritten_check env.hwDetect = none →
        classify_document env = ("OTHER", none)) ∧
      id_check (Except.error ()) = none ∧ handwritten_check (Except.error ()) = none := by
  obtain ⟨ext, idr, hwr⟩ := env
  replace hext : ext = Except.ok (ts, lines) := hext
  subst hext
  have hr := analyze_S2_none hno
  refine ⟨?_, ?_, ?_, rfl, rfl⟩
  · intro hid hw2
    replace hid : idr = Except.ok true := hid
    subst hid
    simp [classify_document, hr, optFalsy, id_check]
  · intro hid hhw
    replace hhw : hwr = Except.ok true := hhw
    subst hhw
    simp [classify_document, hr, optFalsy, hid, handwritten_check]
  · intro hid hhw
    simp [classify_document, hr, optFalsy, hid, hhw]

/-- C8 witness: the cascade at a concrete empty document whose ID
detector fires. -/
theorem c8_witness :
    classify_document ⟨Except.ok ([], []), Except.ok true, Except.ok false⟩ =
      ("ID Card", none) :=
  (c8_fallback_cascade ⟨Except.ok ([], []), Except.ok true, Except.ok false⟩ [] [] rfl
    rfl).1 rfl (Except.ok false)

/-! ### Claim C9 -/

/-- C9: classify_document is total — it always returns a
(document_type, year) pair — and an internal failure (the extraction
call raising) is mapped to the result ("OTHER", None) instead of
propagating. -/
theorem c9_total_on_failures (env : Env) :
    (∃ dt y, classify_document env = (dt, y)) ∧
      (∀ e : Unit, env.extract = Except.error e → classify_document env = ("OTHER", none)) := by
  constructor
  · exact ⟨(classify_document env).1, (classify_document env).2, rfl⟩
  · intro e h
    obtain ⟨ext, idr, hwr⟩ := env
    replace h : ext = Except.error e := h
    subst h
    rfl

/-- C9 witness: totality and the failure mapping at a concrete
erroring input. -/
theorem c9_witness :
    classify_document ⟨Except.error (), Except.ok true, Except.ok true⟩ = ("OTHER", none) :=
  (c9_total_on_failures ⟨Except.error (), Except.ok true, Except.ok true⟩).2 () rfl

/-! ### Claim C4 -/

/-- C4: counterexample.  The 1098 year extractor's font-size check is
strict: a year span at font size exactly 8.0 = 6.0 + 2 (800 = 600 +
200 in hundredths) does not satisfy it, so on a 1098 document whose
year span sits exactly at the tolerance boundary the year is not
extracted — contradicting the claim that every tolerance comparison is
inclusive. -/
theorem c4_counterexample :
    sizeNearStrict (600 + 200) 600 200 = false ∧
      analyze_form_content_improved [] [line1098, lineYear8] = (some "1098", some "") := by
  decide

/-- C4 (amended): the rule matcher's font-size checks are inclusive
absolute-difference bounds (boundary values match, boundary + eps does
not), but the 1098 year extractor's font-size check and bbox-margin
check are strict: a value at exactly expected ± tolerance fails them.
End-to-end: a W-2 line with spans exactly at 7.0 + 2 and 24.0 + 2
still matches, a 1098 year span at font size exactly 6.0 + 2 on the
reference box yields no year, and the same span at 7.0 yields
"2024". -/
theorem c4_tolerance_boundaries :
    (∀ a e t : ℤ, sizeWithinTol a e t = true ↔ |a - e| ≤ t) ∧
      (∀ e : ℤ, sizeWithinTol (e + 200) e 200 = true) ∧
      (∀ e eps : ℤ, 0 < eps → sizeWithinTol (e + 200 + eps) e 200 = false) ∧
      (∀ a e t : ℤ, sizeNearStrict a e t = true ↔ |a - e| < t) ∧
      (∀ e t : ℤ, sizeNearStrict (e + t) e t = false) ∧
      (∀ x y z w m : ℤ, bboxNearStrict (x + m, y, z, w) (x, y, z, w) m = false) ∧
      analyze_form_content_improved [] [w2BoundaryLine] = (some "W2", some "") ∧
      analyze_form_content_improved [] [line1098, lineYear8] = (some "1098", some "") ∧
      analyze_form_content_improved [] [line1098, lineYear7] = (some "1098", some "2024") := by
  refine ⟨?_, ?_, ?_, ?_, ?_, ?_, by decide, by decide, by decide⟩
  · intro a e t
    unfold sizeWithinTol
    exact decide_eq_true_iff
  · intro e
    unfold sizeWithinTol
    rw [decide_eq_true_eq]
    have h : e + 200 - e = (200 : ℤ) := by ring
    rw [h]
    decide
  · intro e eps heps
    unfold sizeWithinTol
    rw [decide_eq_false_iff_not]
    intro hcon
    have h : e + 200 + eps - e = 200 + eps := by ring
    rw [h, abs_of_pos (by linarith)] at hcon
    linarith
  · intro a e t
    unfold sizeNearStrict
    exact decide_eq_true_iff
  · intro e t
    unfold sizeNearStrict
    rw [decide_eq_false_iff_not]
    intro hcon
    have h : e + t - e = t := by ring
    rw [h] at hcon
    exact absurd hcon (not_lt.mpr (le_abs_self t))
  · intro x y z w m
    have h1 : decide (|x + m - x| < m) = false := by
      rw [decide_eq_false_iff_not]
      intro hcon
      have h : x + m - x = m := by ring
      rw [h] at hcon
      exact absurd hcon (not_lt.mpr (le_abs_self m))
    show (decide (|x + m - x| < m) && decide (|y - y| < m) &&
      decide (|z - z| < m) && decide (|w - w| < m)) = false
    rw [h1]
    rfl

/-- C4 witness: the boundary behaviour at the concrete windows of the
source — the matcher window 7.0 ± 2 accepts 9.0 and rejects 9.01, and
the 1098 year window rejects exactly 6.0 + 2. -/
theorem c4_witness :
    sizeWithinTol (700 + 200) 700 200 = true ∧
      sizeWithinTol (700 + 200 + 1) 700 200 = false ∧
      sizeNearStrict (600 + 200) 600 200 = false :=
  ⟨c4_tolerance_boundaries.2.1 700,
    c4_tolerance_boundaries.2.2.1 700 1 (by decide),
    c4_tolerance_boundaries.2.2.2.2.1 600 200⟩
